import Mathlib

/-!
Verification of the New_Zealand_pests biosecurity case-file pipeline.

This file shallowly embeds the pure decision logic of `src/tools.py`:
the CaseFile record held in the per-session state, the fact extractors
(common name, alert level, nearby assets, species classification), and
the state-updating tool functions.  External effects (LLM calls, the
BigQuery weather query, the geocoding HTTP request, the gcloud upload)
are modelled as explicit parameters carrying the effect's outcome, so
each tool becomes a pure function from the current CaseFile and the
external outcomes to a result value and the committed CaseFile.
Python strings are modelled as Lean `String`; the Python `split`,
`lower`, `strip` and substring-`in` primitives are re-implemented
below by structural recursion over `List Char` so that concrete
computations reduce in the kernel.
-/

/-- Boolean test that the first character list is a prefix of the second. -/
def isPre : List Char → List Char → Bool
  | [], _ => true
  | _ :: _, [] => false
  | a :: as, b :: bs => a = b && isPre as bs

/-- Occurrence scan: `containsL sub s` is true when `sub` occurs as a
contiguous run inside `s` (Python `sub in s` on strings). -/
def containsL (sub : List Char) : List Char → Bool
  | [] => sub.isEmpty
  | c :: rest => isPre sub (c :: rest) || containsL sub rest

/-- Python substring membership `sub in s` (case-sensitive). -/
def pyIn (sub s : String) : Bool := containsL sub.data s.data

/-- Worker for `pySplit`: scans left to right, splitting at each
non-overlapping occurrence of `sep`.  The fuel argument only bounds the
recursion; every step consumes at least one character, so starting fuel
equal to the input length makes the fuel-exhaustion branch unreachable. -/
def pySplitGo (sep : List Char) : Nat → List Char → List Char → List (List Char)
  | _, [], acc => [acc]
  | 0, s, acc => [acc ++ s]
  | fuel + 1, c :: rest, acc =>
    if isPre sep (c :: rest) then
      acc :: pySplitGo sep fuel (rest.drop (sep.length - 1)) []
    else
      pySplitGo sep fuel rest (acc ++ [c])

/-- Python `s.split(sep)` for a non-empty separator: the pieces of `s`
between consecutive non-overlapping occurrences of `sep`, scanned left
to right.  Always returns at least one piece. -/
def pySplit (s sep : String) : List String :=
  (pySplitGo sep.data s.data.length s.data []).map String.mk

/-- Python `s.lower()` (ASCII case folding suffices for every string
this program matches on). -/
def pyLower (s : String) : String := String.mk (s.data.map Char.toLower)

/-- Python `s.strip()`: removes leading and trailing whitespace. -/
def pyStrip (s : String) : String :=
  String.mk (((s.data.dropWhile Char.isWhitespace).reverse.dropWhile Char.isWhitespace).reverse)

/-- JSON values, as produced by `json.loads` on the geocoding response.
Numbers are modelled as rationals. -/
inductive Json where
  | null
  | bool (b : Bool)
  | num (q : Rat)
  | str (s : String)
  | arr (xs : List Json)
  | obj (fields : List (String × Json))

/-- Python exceptions that the geocoding response traversal can raise. -/
inductive PyExn where
  | keyError
  | indexError
  | typeError

/-- Python subscript `v[k]` with a string key: field lookup on a dict,
`KeyError` when the key is missing, `TypeError` on any non-dict value. -/
def pyGetStr : Json → String → Except PyExn Json
  | .obj fields, k =>
    match fields.lookup k with
    | some v => .ok v
    | none => .error .keyError
  | _, _ => .error .typeError

/-- Python subscript `v[i]` with a non-negative integer: list indexing
(`IndexError` out of range), single-character access on strings,
`KeyError` on dicts whose keys are strings, `TypeError` otherwise. -/
def pyGetIdx : Json → Nat → Except PyExn Json
  | .arr xs, i =>
    match xs.get? i with
    | some v => .ok v
    | none => .error .indexError
  | .str s, i =>
    match s.data.get? i with
    | some c => .ok (.str (String.mk [c]))
    | none => .error .indexError
  | .obj _, _ => .error .keyError
  | _, _ => .error .typeError

/-- Python `d.get(k, dflt)` on a JSON dict. -/
def pyObjGet (v : Json) (k : String) (dflt : Json) : Json :=
  match v with
  | .obj fields => (fields.lookup k).getD dflt
  | _ => dflt

/-- Python `str(v)` for the scalar JSON values; container rendering is
abbreviated (no claim in this development depends on it). -/
def pyStr : Json → String
  | .null => "None"
  | .bool true => "True"
  | .bool false => "False"
  | .num q => toString q
  | .str s => s
  | .arr _ => "[...]"
  | .obj _ => "\x7b...\x7d"

/-- Python `v == lit` for a string literal `lit`: true exactly when `v`
is the string `lit` (values of other types compare unequal). -/
def isStrEq (v : Json) (lit : String) : Bool :=
  match v with
  | .str t => t = lit
  | _ => false

/-- The `identification` section written by
`update_case_file_with_identification` (src/tools.py lines 476-480). -/
structure Identification where
  topGuess : String
  commonName : String
  confidence : String
deriving DecidableEq

/-- The `threatProfile` section written by
`cross_reference_biosecurity_databases` (src/tools.py lines 227-249).
The benign profile carries no `impact` key, hence the `Option`. -/
structure ThreatProfile where
  statusNZ : String
  threatLevel : String
  hosts : List String
  impact : Option String
  mpi_summary : String
deriving DecidableEq

/-- The `riskAssessment` section written by
`update_case_file_with_risk_assessment` (src/tools.py lines 504-508). -/
structure RiskAssessment where
  summary : String
  alertLevel : String
  nearbyAssets : List String
deriving DecidableEq

/-- The `location` section.  `update_case_file_with_location` writes a
dict with a `description` key; `get_weather_forecast` writes one
without it.  The coordinate values are whatever the writer stored:
raw JSON values from the geocoding response, or the numbers passed to
the weather query. -/
structure Location where
  description : Option String
  lat : Json
  lon : Json

/-- The CaseFile dict held at `tool_context.state["caseFile"]`.  Every
field models one dict key: the outer `Option` is key presence (`none`
means the key is absent, as in the `{}` default of `state.get`), and
for the four section keys the inner `Option` distinguishes a `None`
value (as written by `create_case_file`) from a real section. -/
structure CaseFile where
  caseId : Option String := none
  imageUri : Option String := none
  status : Option String := none
  location : Option (Option Location) := none
  identification : Option (Option Identification) := none
  threatProfile : Option (Option ThreatProfile) := none
  riskAssessment : Option (Option RiskAssessment) := none

/-- The `{}` default returned by `state.get("caseFile", {})` when no
CaseFile has been committed. -/
def CaseFile.empty : CaseFile := {}

/-- Python truthiness of the CaseFile dict: `not case_file` is true
exactly when the dict has no keys. -/
def CaseFile.isEmpty (cf : CaseFile) : Bool :=
  cf.caseId.isNone && cf.imageUri.isNone && cf.status.isNone && cf.location.isNone &&
  cf.identification.isNone && cf.threatProfile.isNone && cf.riskAssessment.isNone

/-- Result of one tool call: the returned status dict (success or
structured error, with its message text), or an uncaught Python
exception escaping the tool (named by its exception type). -/
inductive PyResult where
  | success (message : String)
  | error (message : String)
  | crash (exn : String)

/-- Boolean success test on a tool result. -/
def PyResult.isSuccess : PyResult → Bool
  | .success _ => true
  | _ => false

/-- Common-name extractor inside `update_case_file_with_identification`
(src/tools.py lines 468-474): when `"is a "` occurs in the text, take
`identification.split("is a ")[1].split(" (")[0].strip()`; the
`IndexError` guard (which can never fire once the substring test has
succeeded) leaves the default `"Unknown"`. -/
def extract_common_name (identification : String) : String :=
  if pyIn "is a " identification then
    match pySplit identification "is a " with
    | _ :: seg :: _ => pyStrip ((pySplit seg " (").headD seg)
    | _ => "Unknown"
  else "Unknown"

/-- Alert-level extractor inside `update_case_file_with_risk_assessment`
(src/tools.py lines 489-497): a case-insensitive keyword scan whose
`if/elif` chain tests `"moderate"`, then `"high"`, then `"critical"`,
then `"low"`, defaulting to `"UNKNOWN"`. -/
def extract_alert_level (risk_assessment : String) : String :=
  if pyIn "moderate" (pyLower risk_assessment) then "MODERATE"
  else if pyIn "high" (pyLower risk_assessment) then "HIGH"
  else if pyIn "critical" (pyLower risk_assessment) then "CRITICAL"
  else if pyIn "low" (pyLower risk_assessment) then "LOW"
  else "UNKNOWN"

/-- Nearby-asset extractor inside `update_case_file_with_risk_assessment`
(src/tools.py lines 500-502). -/
def extract_nearby_assets (risk_assessment : String) : List String :=
  if pyIn "vineyards" (pyLower risk_assessment) then ["vineyards"] else []

/-- Embedding of `create_case_file` (src/tools.py lines 513-537).  The
`case_id` argument models the freshly generated `str(uuid.uuid4())`.
The returned dict also carries the initial CaseFile, which is the
second component here. -/
def create_case_file (image_uri : String) (case_id : String) : PyResult × CaseFile :=
  (.success "",
   { caseId := some case_id, imageUri := some image_uri, status := some "Initiated",
     location := some none, identification := some none, threatProfile := some none,
     riskAssessment := some none })

/-- Embedding of `update_case_file_with_identification` (src/tools.py
lines 462-483): writes the `identification` section with the raw text
as `topGuess`, the extracted common name, and the mocked `"HIGH"`
confidence; no other key (in particular `status`) is touched. -/
def update_case_file_with_identification (identification : String) (cf : CaseFile) :
    PyResult × CaseFile :=
  (.success "CaseFile updated with identification.",
   { cf with
     identification := some (some ⟨identification, extract_common_name identification, "HIGH"⟩) })

/-- Embedding of `update_case_file_with_risk_assessment` (src/tools.py
lines 485-511): writes the `riskAssessment` section from the narrative
via the two extractors; no other key (in particular `status`) is
touched. -/
def update_case_file_with_risk_assessment (risk_assessment : String) (cf : CaseFile) :
    PyResult × CaseFile :=
  (.success "CaseFile updated with risk assessment.",
   { cf with
     riskAssessment := some (some ⟨risk_assessment, extract_alert_level risk_assessment,
                                   extract_nearby_assets risk_assessment⟩) })

/-- Embedding of `cross_reference_biosecurity_databases` (src/tools.py
lines 204-252).  `mpi_summary` models `state.get('mpi_summary', '')`.
The species string is matched case-sensitively against the fixed
two-entry threat table; a CaseFile whose `identification` key holds
`None` reaches `case_file["identification"]["topGuess"]` and raises an
uncaught `TypeError`. -/
def cross_reference_biosecurity_databases (cf : CaseFile) (mpi_summary : String) :
    PyResult × CaseFile :=
  if cf.isEmpty then (.error "No identification found in CaseFile.", cf)
  else
    match cf.identification with
    | none => (.error "No identification found in CaseFile.", cf)
    | some none => (.crash "TypeError", cf)
    | some (some idn) =>
      let species_name := idn.topGuess
      let threat_profile_data : ThreatProfile :=
        if pyIn "Spodoptera frugiperda" species_name then
          { statusNZ := "Unwanted Organism - Not Established", threatLevel := "HIGH",
            hosts := ["maize", "sweet corn", "sorghum"],
            impact := some "Fall armyworm can cause significant damage to a wide range of crops, leading to major economic losses.",
            mpi_summary := mpi_summary }
        else if pyIn "Brown Marmorated Stink Bug" species_name || pyIn "Halyomorpha halys" species_name then
          { statusNZ := "Unwanted Organism - Not Established", threatLevel := "HIGH",
            hosts := ["grapes", "apples", "pears", "citrus", "kiwifruit", "corn", "tomatoes", "peppers"],
            impact := some "The Brown Marmorated Stink Bug is a significant threat to New Zealand\x27s horticulture industry. It feeds on a wide range of fruits and vegetables, causing significant economic damage. It is also a social nuisance, as it enters homes in large numbers during autumn and winter.",
            mpi_summary := mpi_summary }
        else
          { statusNZ := "Benign", threatLevel := "LOW", hosts := [], impact := none,
            mpi_summary := mpi_summary }
      (.success ("Threat level for " ++ species_name ++ " assessed as " ++
                 threat_profile_data.threatLevel ++ "."),
       { cf with threatProfile := some (some threat_profile_data) })

/-- Embedding of `get_weather_forecast` (src/tools.py lines 96-165).
The BigQuery round trip is the `query` parameter: an error message when
the query raised, or the (already normalised) forecast records.  On
success the tool overwrites `case_file["location"]` with a dict holding
only the queried coordinates and commits; on failure it returns a
structured error without touching the state. -/
def get_weather_forecast (latitude longitude : Rat) (cf : CaseFile)
    (query : Except String (List String)) : PyResult × CaseFile :=
  match query with
  | .error e => (.error ("Failed to retrieve weather forecast: " ++ e), cf)
  | .ok _forecasts =>
    (.success "", { cf with location := some (some ⟨none, .num latitude, .num longitude⟩) })

/-- Embedding of `generate_and_send_report` (src/tools.py lines
254-396).  The completeness gate tests key presence only.  After the
gate, the code dereferences `location`, then the `riskAssessment`,
`identification` and `threatProfile` sections while building the HTML
report; a section whose value is `None` raises an uncaught `TypeError`
there.  The whole publish block (temp-file write, gcloud upload,
cleanup) is the `publish` parameter: its error is the caught
gcloud/unexpected-exception path, its success carries the report URL.
Only on publish success is a copy of the CaseFile with
`status = "Reported"` committed. -/
def generate_and_send_report (cf : CaseFile) (publish : Except String String) :
    PyResult × CaseFile :=
  if cf.identification.isSome && cf.threatProfile.isSome &&
     cf.riskAssessment.isSome && cf.location.isSome then
    match cf.location with
    | some (some _loc) =>
      match cf.riskAssessment with
      | some (some _ra) =>
        match cf.identification with
        | some (some _idn) =>
          match cf.threatProfile with
          | some (some _tp) =>
            match publish with
            | .error e => (.error ("Failed to process report with gcloud: " ++ e), cf)
            | .ok report_url =>
              (.success ("Report generated and available at " ++ report_url),
               { cf with status := some "Reported" })
          | _ => (.crash "TypeError", cf)
        | _ => (.crash "TypeError", cf)
      | _ => (.crash "TypeError", cf)
    | _ => (.crash "TypeError", cf)
  else (.error "CaseFile is incomplete for final reporting.", cf)

/-- Outcome of the geocoding HTTP round trip plus `json.loads`, as seen
by `update_case_file_with_location`: a network failure (`URLError`), a
response body that is not valid text (`UnicodeDecodeError`), a body
that is text but not JSON (`JSONDecodeError`), or a parsed JSON value. -/
inductive GeoResponse where
  | networkError (reason : String)
  | badEncoding
  | undecodable
  | json (data : Json)

/-- The coordinate extraction
`geocode_data["results"][0]["geometry"]["location"]["lat"]` / `["lng"]`
from src/tools.py lines 571-572, with Python subscript semantics. -/
def geocodeParse (data : Json) : Except PyExn (Json × Json) := do
  let results ← pyGetStr data "results"
  let r0 ← pyGetIdx results 0
  let geometry ← pyGetStr r0 "geometry"
  let loc ← pyGetStr geometry "location"
  let lat ← pyGetStr loc "lat"
  let lng ← pyGetStr loc "lng"
  pure (lat, lng)

/-- Embedding of `update_case_file_with_location` (src/tools.py lines
539-595).  `api_key` models `os.environ.get("GOOGLE_MAPS_API_KEY")`
(`none` = unset; the empty string is falsy in Python and also rejected).
The `try` block catches `URLError`, `(KeyError, IndexError)` and
`JSONDecodeError`; any other exception raised inside it — `TypeError`
from subscripting a non-dict/non-list JSON value, `UnicodeDecodeError`
from a non-text body — escapes the tool uncaught. -/
def update_case_file_with_location (location : String) (cf : CaseFile)
    (api_key : Option String) (response : GeoResponse) : PyResult × CaseFile :=
  if cf.isEmpty then (.error "No CaseFile found in session state.", cf)
  else
    match api_key with
    | none => (.error "GOOGLE_MAPS_API_KEY environment variable not set.", cf)
    | some key =>
      if key = "" then (.error "GOOGLE_MAPS_API_KEY environment variable not set.", cf)
      else
        match response with
        | .networkError reason =>
          (.error ("Failed to connect to Geocoding API: " ++ reason), cf)
        | .badEncoding => (.crash "UnicodeDecodeError", cf)
        | .undecodable => (.error "Invalid response from Geocoding API.", cf)
        | .json data =>
          match pyGetStr data "status" with
          | .error .typeError => (.crash "TypeError", cf)
          | .error _ => (.error "Failed to parse geocoding response.", cf)
          | .ok statusVal =>
            if isStrEq statusVal "OK" then
              match geocodeParse data with
              | .error .typeError => (.crash "TypeError", cf)
              | .error _ => (.error "Failed to parse geocoding response.", cf)
              | .ok (lat, lng) =>
                (.success "",
                 { cf with location := some (some ⟨some location, lat, lng⟩) })
            else
              (.error ("Geocoding failed: " ++ pyStr (pyObjGet data "error_message" statusVal)), cf)

/-- Projection: the alert level recorded in a CaseFile, through both
layers of key presence. -/
def alertLevelOf (cf : CaseFile) : Option (Option String) :=
  cf.riskAssessment.map (Option.map RiskAssessment.alertLevel)

/-- Projection: the common name recorded in a CaseFile. -/
def commonNameOf (cf : CaseFile) : Option (Option String) :=
  cf.identification.map (Option.map Identification.commonName)

/-- Projection: the threat level recorded in a CaseFile. -/
def threatLevelOf (cf : CaseFile) : Option (Option String) :=
  cf.threatProfile.map (Option.map ThreatProfile.threatLevel)

/-- Auxiliary: the split worker never returns an empty list. -/
theorem pySplitGo_ne_nil (sep : List Char) :
    ∀ (fuel : Nat) (s acc : List Char), pySplitGo sep fuel s acc ≠ [] := by
  intro fuel
  induction fuel with
  | zero =>
    intro s acc
    cases s <;> simp [pySplitGo]
  | succ n ih =>
    intro s acc
    cases s with
    | nil => simp [pySplitGo]
    | cons c rest =>
      simp only [pySplitGo]
      by_cases h : isPre sep (c :: rest) = true
      · rw [if_pos h]
        simp
      · rw [if_neg h]
        exact ih rest (acc ++ [c])

/-- Auxiliary: with enough fuel, the split worker produces at least two
pieces exactly when the (non-empty) separator occurs in the input. -/
theorem pySplitGo_two_iff (sep : List Char) (hsep : sep ≠ []) :
    ∀ (fuel : Nat) (s acc : List Char), s.length ≤ fuel →
      (2 ≤ (pySplitGo sep fuel s acc).length ↔ containsL sep s = true) := by
  intro fuel
  induction fuel with
  | zero =>
    intro s acc hlen
    have hs : s = [] := List.length_eq_zero.mp (Nat.le_zero.mp hlen)
    subst hs
    simp [pySplitGo, containsL, List.isEmpty_iff, hsep]
  | succ n ih =>
    intro s acc hlen
    cases s with
    | nil => simp [pySplitGo, containsL, List.isEmpty_iff, hsep]
    | cons c rest =>
      simp only [pySplitGo, containsL]
      by_cases h : isPre sep (c :: rest) = true
      · rw [if_pos h]
        simp only [List.length_cons, h, Bool.true_or, iff_true]
        have hne := pySplitGo_ne_nil sep n (rest.drop (sep.length - 1)) []
        have hpos : 0 < (pySplitGo sep n (rest.drop (sep.length - 1)) []).length :=
          List.length_pos.mpr hne
        omega
      · rw [if_neg h]
        rw [ih rest (acc ++ [c]) (by simpa using Nat.le_of_succ_le_succ (by simpa using hlen))]
        simp [h]

/-- Auxiliary: Python `sub in s` holds exactly when `s.split(sub)` has
at least two pieces (for non-empty `sub`). -/
theorem pyIn_iff_two_le_pySplit (sub s : String) (hsub : sub ≠ "") :
    pyIn sub s = true ↔ 2 ≤ (pySplit s sub).length := by
  have hdata : sub.data ≠ [] := by
    intro h
    apply hsub
    cases sub
    simp_all
  rw [pyIn, pySplit, List.length_map]
  exact (pySplitGo_two_iff sub.data hdata s.data.length s.data [] le_rfl).symm
/-- C1 (counterexample): the claim says a narrative containing both
"moderate" and "critical" yields alert level "CRITICAL"; the code's
`if/elif` chain tests "moderate" first, so such a narrative yields
"MODERATE" instead. -/
theorem c1_counterexample :
    alertLevelOf ((update_case_file_with_risk_assessment
        "Spread risk is moderate now but could become critical within days." CaseFile.empty).2) =
      some (some "MODERATE") ∧ "MODERATE" ≠ "CRITICAL" := by
  exact ⟨rfl, by decide⟩

/-- C1 (amended): the alert level derived by the risk-assessment update
follows the case-insensitive keyword priority moderate > high >
critical > low, with "UNKNOWN" when none of the four keywords occurs. -/
theorem c1_amended (r : String) (cf : CaseFile) :
    (pyIn "moderate" (pyLower r) = true →
      alertLevelOf ((update_case_file_with_risk_assessment r cf).2) = some (some "MODERATE")) ∧
    (pyIn "moderate" (pyLower r) = false → pyIn "high" (pyLower r) = true →
      alertLevelOf ((update_case_file_with_risk_assessment r cf).2) = some (some "HIGH")) ∧
    (pyIn "moderate" (pyLower r) = false → pyIn "high" (pyLower r) = false →
      pyIn "critical" (pyLower r) = true →
      alertLevelOf ((update_case_file_with_risk_assessment r cf).2) = some (some "CRITICAL")) ∧
    (pyIn "moderate" (pyLower r) = false → pyIn "high" (pyLower r) = false →
      pyIn "critical" (pyLower r) = false → pyIn "low" (pyLower r) = true →
      alertLevelOf ((update_case_file_with_risk_assessment r cf).2) = some (some "LOW")) ∧
    (pyIn "moderate" (pyLower r) = false → pyIn "high" (pyLower r) = false →
      pyIn "critical" (pyLower r) = false → pyIn "low" (pyLower r) = false →
      alertLevelOf ((update_case_file_with_risk_assessment r cf).2) = some (some "UNKNOWN")) := by
  refine ⟨?_, ?_, ?_, ?_, ?_⟩ <;> intros <;>
    simp [alertLevelOf, update_case_file_with_risk_assessment, extract_alert_level, *]

/-- C1 (witness): the amended priority chain evaluated on a concrete
narrative containing "critical" but none of the higher-priority
keywords. -/
theorem c1_witness :
    alertLevelOf ((update_case_file_with_risk_assessment
        "This is a critical situation." CaseFile.empty).2) = some (some "CRITICAL") :=
  (c1_amended "This is a critical situation." CaseFile.empty).2.2.1
    (by decide) (by decide) (by decide)

/-- C2 (counterexample): the claim says every species string not
containing "Spodoptera frugiperda" classifies as the benign LOW
profile, but the table has a second entry: "Halyomorpha halys"
classifies as threat level "HIGH". -/
theorem c2_counterexample :
    threatLevelOf ((cross_reference_biosecurity_databases
        { identification := some (some ⟨"Halyomorpha halys", "Brown Marmorated Stink Bug", "HIGH"⟩) }
        "").2) = some (some "HIGH") ∧ "HIGH" ≠ "LOW" := by
  exact ⟨rfl, by decide⟩

/-- C2 (amended): the species classification lookup has two table
entries — species containing "Spodoptera frugiperda" map to the fall
armyworm HIGH profile, species containing "Brown Marmorated Stink Bug"
or "Halyomorpha halys" map to the stink bug HIGH profile — and every
other species maps to the benign profile (statusNZ "Benign", threat
level "LOW", no hosts). -/
theorem c2_amended (cf : CaseFile) (idn : Identification) (mpi : String) :
    (cross_reference_biosecurity_databases
        { cf with identification := some (some idn) } mpi).2.threatProfile =
      some (some
        (if pyIn "Spodoptera frugiperda" idn.topGuess then
          { statusNZ := "Unwanted Organism - Not Established", threatLevel := "HIGH",
            hosts := ["maize", "sweet corn", "sorghum"],
            impact := some "Fall armyworm can cause significant damage to a wide range of crops, leading to major economic losses.",
            mpi_summary := mpi }
        else if pyIn "Brown Marmorated Stink Bug" idn.topGuess || pyIn "Halyomorpha halys" idn.topGuess then
          { statusNZ := "Unwanted Organism - Not Established", threatLevel := "HIGH",
            hosts := ["grapes", "apples", "pears", "citrus", "kiwifruit", "corn", "tomatoes", "peppers"],
            impact := some "The Brown Marmorated Stink Bug is a significant threat to New Zealand\x27s horticulture industry. It feeds on a wide range of fruits and vegetables, causing significant economic damage. It is also a social nuisance, as it enters homes in large numbers during autumn and winter.",
            mpi_summary := mpi }
        else
          { statusNZ := "Benign", threatLevel := "LOW", hosts := [], impact := none,
            mpi_summary := mpi })) := by
  simp [cross_reference_biosecurity_databases, CaseFile.isEmpty]

/-- C9: case-file creation stores a CaseFile with the generated id, the
given image URI, status "Initiated", and all four section keys present
but holding null, so a key-presence check succeeds on all four. -/
theorem c9_create_case_file (uri cid : String) :
    create_case_file uri cid =
      (.success "",
       { caseId := some cid, imageUri := some uri, status := some "Initiated",
         location := some none, identification := some none, threatProfile := some none,
         riskAssessment := some none }) ∧
    (create_case_file uri cid).2.location.isSome = true ∧
    (create_case_file uri cid).2.identification.isSome = true ∧
    (create_case_file uri cid).2.threatProfile.isSome = true ∧
    (create_case_file uri cid).2.riskAssessment.isSome = true :=
  ⟨rfl, rfl, rfl, rfl, rfl⟩
/-- C3 (code bug, evaluated): the reporting gate checks key presence
only.  A CaseFile fresh from `create_case_file` has all four section
keys present with null values, so it passes the gate and the report
renderer then raises an uncaught TypeError dereferencing the null
`location` — before any publish side effect, but not with the
structured incomplete-CaseFile error the claim (and the spec's
never-raise-uncaught policy) require.  A CaseFile whose
`riskAssessment` key is genuinely absent is rejected with the
structured error, also before any publish side effect; in both parts
the result does not depend on the publish outcome. -/
theorem c3_gate_bug_eval :
    (∀ publish : Except String String,
      generate_and_send_report (create_case_file "gs://new-zealand-insects/insect1.png" "case-1").2 publish =
        (.crash "TypeError", (create_case_file "gs://new-zealand-insects/insect1.png" "case-1").2)) ∧
    (∀ publish : Except String String,
      generate_and_send_report { caseId := some "case-1" } publish =
        (.error "CaseFile is incomplete for final reporting.", { caseId := some "case-1" })) := by
  constructor <;> intro publish <;> rfl

/-- C4 (counterexample): the claim says the identification stage on
success advances status to "Identified"; in the code no stage except
reporting writes `status`, so a fresh CaseFile still has status
"Initiated" after a successful identification update. -/
theorem c4_counterexample :
    (update_case_file_with_identification
        "The insect in the image is a Spotted Lanternfly (Lycorma delicatula)."
        (create_case_file "gs://new-zealand-insects/insect1.png" "case-1").2).2.status =
      some "Initiated" ∧ (some "Initiated" : Option String) ≠ some "Identified" := by
  exact ⟨rfl, by decide⟩

/-- C4 (amended): only the reporting stage ever writes `status`.
Creation sets "Initiated"; the identification, threat-analysis,
risk-assessment, weather and location updates all leave `status`
unchanged; reporting either sets "Reported" (on success) or leaves
`status` unchanged.  Status therefore never regresses, but it jumps
from "Initiated" straight to "Reported", skipping the intermediate
values named by the claim. -/
theorem c4_amended (cf : CaseFile) (s r mpi uri cid loc : String) (la lo : Rat)
    (q : Except String (List String)) (pub : Except String String)
    (key : Option String) (resp : GeoResponse) :
    (update_case_file_with_identification s cf).2.status = cf.status ∧
    (cross_reference_biosecurity_databases cf mpi).2.status = cf.status ∧
    (update_case_file_with_risk_assessment r cf).2.status = cf.status ∧
    (get_weather_forecast la lo cf q).2.status = cf.status ∧
    (update_case_file_with_location loc cf key resp).2.status = cf.status ∧
    (create_case_file uri cid).2.status = some "Initiated" ∧
    ((generate_and_send_report cf pub).2.status = some "Reported" ∨
      (generate_and_send_report cf pub).2.status = cf.status) := by
  refine ⟨rfl, ?_, rfl, ?_, ?_, rfl, ?_⟩
  · unfold cross_reference_biosecurity_databases
    repeat' split <;> try rfl
  · unfold get_weather_forecast
    repeat' split <;> try rfl
  · unfold update_case_file_with_location
    repeat' split <;> try rfl
  · unfold generate_and_send_report
    split
    · rcases cf.location with _ | lo
      · exact Or.inr rfl
      rcases lo with _ | _
      · exact Or.inr rfl
      rcases cf.riskAssessment with _ | ra
      · exact Or.inr rfl
      rcases ra with _ | _
      · exact Or.inr rfl
      rcases cf.identification with _ | idn
      · exact Or.inr rfl
      rcases idn with _ | _
      · exact Or.inr rfl
      rcases cf.threatProfile with _ | tp
      · exact Or.inr rfl
      rcases tp with _ | _
      · exact Or.inr rfl
      rcases pub with e | u
      · exact Or.inr rfl
      · exact Or.inl rfl
    · exact Or.inr rfl

/-- C5 (counterexample): the claim says the common name is the text
after the first "is a " up to the next " (" or end of string; the code
takes `split("is a ")[1]`, which stops at the next occurrence of
"is a " as well, so a narrative with two occurrences yields only the
text between them. -/
theorem c5_counterexample :
    commonNameOf ((update_case_file_with_identification
        "The creature is a pest is a Stink Bug (Halyomorpha halys)." CaseFile.empty).2) =
      some (some "pest") ∧ "pest" ≠ "pest is a Stink Bug" := by
  exact ⟨rfl, by decide⟩

/-- C5 (amended): when "is a " occurs in the identification text, the
extracted common name is the segment strictly between the first and
second occurrences of "is a " (to end of string when there is only
one), truncated at its first " (", with surrounding whitespace
stripped; when "is a " does not occur, the common name is "Unknown".
The spec's positive example still holds. -/
theorem c5_amended (s : String) (cf : CaseFile) :
    (commonNameOf ((update_case_file_with_identification s cf).2) =
      some (some
        (match pySplit s "is a " with
        | _ :: seg :: _ => pyStrip ((pySplit seg " (").headD seg)
        | _ => "Unknown"))) ∧
    (pyIn "is a " s = false →
      commonNameOf ((update_case_file_with_identification s cf).2) = some (some "Unknown")) ∧
    commonNameOf ((update_case_file_with_identification
        "The insect in the image is a Spotted Lanternfly (Lycorma delicatula)." cf).2) =
      some (some "Spotted Lanternfly") := by
  refine ⟨?_, ?_, rfl⟩
  · by_cases h : pyIn "is a " s = true
    · simp only [commonNameOf, update_case_file_with_identification, extract_common_name, h,
        if_true]
      rfl
    · have hfalse : pyIn "is a " s = false := by simpa using h
      have hlen : ¬ 2 ≤ (pySplit s "is a ").length := by
        rw [← pyIn_iff_two_le_pySplit "is a " s (by decide)]
        simp [hfalse]
      have hpos : (pySplit s "is a ").length ≥ 1 := by
        have := pySplitGo_ne_nil "is a ".data s.data.length s.data []
        have : 0 < (pySplitGo "is a ".data s.data.length s.data []).length :=
          List.length_pos.mpr this
        simpa [pySplit] using this
      have hone : (pySplit s "is a ").length = 1 := by omega
      obtain ⟨x, hx⟩ := List.length_eq_one.mp hone
      simp [commonNameOf, update_case_file_with_identification, extract_common_name, hfalse, hx]
  · intro hfalse
    simp [commonNameOf, update_case_file_with_identification, extract_common_name, hfalse]

/-- C5 (witness): the amended statement applied to a concrete text with
no "is a " pattern. -/
theorem c5_witness :
    commonNameOf ((update_case_file_with_identification
        "An unidentifiable black beetle." CaseFile.empty).2) = some (some "Unknown") :=
  (c5_amended "An unidentifiable black beetle." CaseFile.empty).2.1 (by decide)
/-- C6: on a CaseFile whose four required sections are present and
non-null, the reporting stage is atomic with respect to publishing —
when the publish block fails the stage returns the structured
publish-failure error and the CaseFile is returned unmodified, and
exactly on publish success the committed CaseFile carries
status "Reported". -/
theorem c6_report_atomic (cf : CaseFile) (idn : Identification) (tp : ThreatProfile)
    (ra : RiskAssessment) (loc : Location) (pub : Except String String) :
    generate_and_send_report
        { cf with identification := some (some idn), threatProfile := some (some tp),
                  riskAssessment := some (some ra), location := some (some loc) } pub =
      match pub with
      | .error e =>
        (.error ("Failed to process report with gcloud: " ++ e),
         { cf with identification := some (some idn), threatProfile := some (some tp),
                   riskAssessment := some (some ra), location := some (some loc) })
      | .ok u =>
        (.success ("Report generated and available at " ++ u),
         { cf with identification := some (some idn), threatProfile := some (some tp),
                   riskAssessment := some (some ra), location := some (some loc),
                   status := some "Reported" }) := by
  cases pub <;> rfl

/-- C7 (counterexample): the claim says the weather-forecast query
leaves the CaseFile's location (including its description) unchanged;
on query success the code overwrites `location` with a dict holding
only the queried coordinates, dropping the description. -/
theorem c7_counterexample :
    (get_weather_forecast 3 4
        { location := some (some ⟨some "Auckland, New Zealand", Json.num 1, Json.num 2⟩) }
        (.ok [])).2.location = some (some ⟨none, Json.num 3, Json.num 4⟩) ∧
    some (some (Location.mk none (Json.num 3) (Json.num 4))) ≠
      some (some (Location.mk (some "Auckland, New Zealand") (Json.num 1) (Json.num 2))) := by
  refine ⟨rfl, ?_⟩
  simp [Location.mk.injEq]

/-- C7 (amended): on query success the weather-forecast tool overwrites
the CaseFile's location with the queried coordinates and no
description, leaving every other field unchanged; on query failure it
returns a structured error and leaves the whole CaseFile unchanged. -/
theorem c7_amended (la lo : Rat) (cf : CaseFile) (fs : List String) (e : String) :
    get_weather_forecast la lo cf (.ok fs) =
      (.success "", { cf with location := some (some ⟨none, Json.num la, Json.num lo⟩) }) ∧
    get_weather_forecast la lo cf (.error e) =
      (.error ("Failed to retrieve weather forecast: " ++ e), cf) :=
  ⟨rfl, rfl⟩

/-- C8 (counterexample): the absence of the geocoding API key is
detected per request, not at startup: the same location-update request
that succeeds with a key present returns a structured error caused
solely by the key being unset. -/
theorem c8_counterexample :
    update_case_file_with_location "Auckland" { caseId := some "case-1" } none
        (.json (.obj [("status", Json.str "OK"),
          ("results", Json.arr [Json.obj [("geometry", Json.obj [("location",
            Json.obj [("lat", Json.num (-37)), ("lng", Json.num 175)])])]])])) =
      (.error "GOOGLE_MAPS_API_KEY environment variable not set.", { caseId := some "case-1" }) ∧
    update_case_file_with_location "Auckland" { caseId := some "case-1" } (some "key")
        (.json (.obj [("status", Json.str "OK"),
          ("results", Json.arr [Json.obj [("geometry", Json.obj [("location",
            Json.obj [("lat", Json.num (-37)), ("lng", Json.num 175)])])]])])) =
      (.success "",
       { caseId := some "case-1",
         location := some (some ⟨some "Auckland", Json.num (-37), Json.num 175⟩) }) :=
  ⟨rfl, rfl⟩

/-- C8 (amended): a missing geocoding API key is a per-request
condition — on every CaseFile with at least its `caseId` key set,
every location string and every response, the location-update
operation with the key unset returns the structured
missing-key error and leaves the CaseFile unchanged. -/
theorem c8_amended (cf : CaseFile) (cid loc : String) (resp : GeoResponse) :
    update_case_file_with_location loc { cf with caseId := some cid } none resp =
      (.error "GOOGLE_MAPS_API_KEY environment variable not set.",
       { cf with caseId := some cid }) := rfl

/-- C10 (counterexample): the claim says the location update never
raises an uncaught exception and handles every malformed response; a
response body that parses to a JSON array makes
`geocode_data["status"]` raise an uncaught TypeError (only URLError,
KeyError, IndexError and JSONDecodeError are caught). -/
theorem c10_counterexample :
    update_case_file_with_location "Auckland" { caseId := some "case-1" } (some "key")
        (.json (Json.arr [])) =
      (.crash "TypeError", { caseId := some "case-1" }) := rfl

/-- C10 (amended): on the caught failure paths — no CaseFile in the
session, missing API key, network failure, JSON-undecodable body,
non-OK geocoding status, and OK responses whose object structure lacks
the expected keys or array elements — the location update returns a
structured error and leaves the session CaseFile unchanged; but a
response parsing to a JSON value on which the key/index traversal hits
a non-dict/non-list value raises an uncaught TypeError instead. -/
theorem c10_amended (cf : CaseFile) (cid loc key reason emsg st : String) (v : Json)
    (hkey : key ≠ "") :
    (update_case_file_with_location loc CaseFile.empty (some key) (.json v) =
      (.error "No CaseFile found in session state.", CaseFile.empty)) ∧
    (update_case_file_with_location loc { cf with caseId := some cid } none (.json v) =
      (.error "GOOGLE_MAPS_API_KEY environment variable not set.",
       { cf with caseId := some cid })) ∧
    (update_case_file_with_location loc { cf with caseId := some cid } (some key)
        (.networkError reason) =
      (.error ("Failed to connect to Geocoding API: " ++ reason),
       { cf with caseId := some cid })) ∧
    (update_case_file_with_location loc { cf with caseId := some cid } (some key)
        .undecodable =
      (.error "Invalid response from Geocoding API.", { cf with caseId := some cid })) ∧
    (st ≠ "OK" →
      update_case_file_with_location loc { cf with caseId := some cid } (some key)
          (.json (.obj [("status", Json.str st), ("error_message", Json.str emsg)])) =
        (.error ("Geocoding failed: " ++ emsg), { cf with caseId := some cid })) ∧
    (update_case_file_with_location loc { cf with caseId := some cid } (some key)
        (.json (.obj [("status", Json.str "OK")])) =
      (.error "Failed to parse geocoding response.", { cf with caseId := some cid })) ∧
    (update_case_file_with_location loc { cf with caseId := some cid } (some key)
        (.json (.obj [("status", Json.str "OK"), ("results", Json.arr [])])) =
      (.error "Failed to parse geocoding response.", { cf with caseId := some cid })) := by
  have h2 : (key = "") = False := eq_false hkey
  refine ⟨rfl, rfl, ?_, ?_, fun hst => ?_, ?_, ?_⟩
  · simp only [update_case_file_with_location, h2, if_false]
    rfl
  · simp only [update_case_file_with_location, h2, if_false]
    rfl
  · simp [update_case_file_with_location, CaseFile.isEmpty, isStrEq, pyGetStr, pyGetIdx,
      pyObjGet, pyStr, geocodeParse, List.lookup, hkey, hst]
  · simp only [update_case_file_with_location, h2, if_false]
    rfl
  · simp only [update_case_file_with_location, h2, if_false]
    rfl
/-- C10 (witness): the amended statement applied to a concrete
REQUEST_DENIED response. -/
theorem c10_witness :
    update_case_file_with_location "Auckland" { caseId := some "case-1" } (some "key")
        (.json (.obj [("status", Json.str "REQUEST_DENIED"),
          ("error_message", Json.str "The provided API key is invalid.")])) =
      (.error "Geocoding failed: The provided API key is invalid.",
       { caseId := some "case-1" }) :=
  (c10_amended CaseFile.empty "case-1" "Auckland" "key" "reason"
      "The provided API key is invalid." "REQUEST_DENIED" Json.null
      (by decide)).2.2.2.2.1 (by decide)
